import Mathlib

/-!
Shallow embedding of `ApplicationIntegrationToolset`
(src/google/adk/tools/application_integration_tool/application_integration_toolset.py).

The class turns a configuration into a registry of tools: it validates the
configuration (integration mode vs connection mode), fetches an OpenAPI-shaped
spec from external clients, resolves an auth scheme/credential pair, parses the
spec into tools and stores them in a name-keyed, insertion-ordered dict.

External collaborators (`IntegrationClient`, `ConnectionsClient`,
`OpenAPIToolset`, `service_account_scheme_credential`, the pydantic credential
models) are not under src/; they are modelled as an environment of oracle
functions, and the remote calls made during construction are recorded in an
explicit trace so that call-counting properties can be stated.
-/

namespace ADK

/-- Python truthiness of an `Optional[str]` value: `None` and the empty string
are falsy.  The source guards (`if integration and trigger:` etc.) test
truthiness, not mere presence. -/
def truthyStr : Option String → Bool
  | none => false
  | some s => !s.isEmpty

/-- Python truthiness of an optional collection (`entity_operations`,
`actions`): `None` and an empty collection are falsy. -/
def truthyList {α : Type} : Option (List α) → Bool
  | none => false
  | some l => !l.isEmpty

/-- The constructor arguments of `ApplicationIntegrationToolset.__init__`.
`entity_operations` is a mapping entity name to operation names, `actions` a
list of action names; `tool_name` and `tool_instructions` default to `""` in
the source. -/
structure ToolsetConfig where
  project : String
  location : String
  integration : Option String := none
  trigger : Option String := none
  connection : Option String := none
  entity_operations : Option (List (String × List String)) := none
  actions : Option (List String) := none
  tool_name : String := ""
  tool_instructions : String := ""
  service_account_json : Option String := none
deriving DecidableEq, Repr

/-- The structured service-account credential produced by
`ServiceAccountCredential.model_validate_json` (external pydantic model, not
under src/); its fields are opaque to this core, so it is modelled as an
opaque payload. -/
structure ServiceAccountCredential where
  payload : String
deriving DecidableEq, Repr

/-- Modelled from the spec: the `ServiceAccount` credential model
(`google.adk.auth.auth_credential`, not under src/) carries either an explicit
service-account credential or the "use ambient/default credential" sentinel,
plus a scope list. -/
structure ServiceAccount where
  service_account_credential : Option ServiceAccountCredential := none
  use_default_credential : Bool := false
  scopes : List String := []
deriving DecidableEq, Repr

/-- Modelled from the spec: the credential-type tag
(`google.adk.auth.auth_credential.AuthCredentialTypes`, not under src/); only
the service-account variant is used by this core. -/
inductive AuthCredentialTypes
  | SERVICE_ACCOUNT
deriving DecidableEq, Repr

/-- Modelled from the spec: the `AuthCredential` model
(`google.adk.auth.auth_credential`, not under src/), restricted to the fields
this core sets. -/
structure AuthCredential where
  auth_type : AuthCredentialTypes
  service_account : Option ServiceAccount := none
deriving DecidableEq, Repr

/-- The auth scheme handed to the parser: either the generic fastapi
`HTTPBearer(bearerFormat=...)` scheme built inline by the source, or the
scheme produced by the external service-account scheme helper (opaque beyond
recording which service-account config it was derived from). -/
inductive AuthScheme
  | httpBearer (bearerFormat : String)
  | fromServiceAccountHelper (config : ServiceAccount)
deriving DecidableEq, Repr

/-- Modelled from the spec: the external helper
`service_account_scheme_credential`
(`google.adk.tools.openapi_tool.auth.auth_helpers`, not under src/) takes a
service-account config and returns a scheme derived from it together with a
credential wrapping that config. -/
def service_account_scheme_credential (config : ServiceAccount) :
    AuthScheme × AuthCredential :=
  (AuthScheme.fromServiceAccountHelper config,
   { auth_type := AuthCredentialTypes.SERVICE_ACCOUNT,
     service_account := some config })

/-- A tool produced by the parser.  Only the `name` is inspected by this core;
`tag` stands for the rest of the tool object so that distinct tools with equal
names can be told apart. -/
structure RestApiTool where
  name : String
  tag : Nat := 0
deriving DecidableEq, Repr

/-- The connection metadata returned by
`ConnectionsClient.get_connection_details` (the source reads the keys
`serviceName` and `host`). -/
structure ConnectionDetails where
  serviceName : String
  host : String
deriving DecidableEq, Repr

/-- One remote call made during construction, recorded in order. -/
inductive CallEvent
  | get_openapi_spec_for_integration
  | get_connection_details
  | get_openapi_spec_for_connection (tool_name tool_instructions : String)
deriving DecidableEq, Repr

/-- The exceptions construction can raise: the `ValueError` of the validation
step (with its message) and the pydantic validation error raised on malformed
service-account JSON. -/
inductive InitError
  | valueError (msg : String)
  | credentialParseError
deriving DecidableEq, Repr

/-- The behaviour of the external collaborators, abstracted over the spec
document type `σ`:  the two spec-fetching calls of `IntegrationClient`, the
metadata call of `ConnectionsClient`, JSON parsing of the service-account
payload (`none` models a pydantic validation failure), and
`OpenAPIToolset(...).get_tools()` as a function of the document and the
resolved auth pair. -/
structure Env (σ : Type) where
  get_openapi_spec_for_integration : σ
  get_connection_details : ConnectionDetails
  get_openapi_spec_for_connection : String → String → σ
  parse_sa_json : String → Option ServiceAccountCredential
  openapi_toolset_get_tools : σ → AuthCredential → AuthScheme → List RestApiTool

/-- The constructed toolset: the stored constructor arguments plus the
`generated_tools` dict, modelled as an insertion-ordered association list
(Python dict semantics). -/
structure ApplicationIntegrationToolset where
  cfg : ToolsetConfig
  generated_tools : List (String × RestApiTool)
deriving DecidableEq, Repr

/-- Python dict assignment `self.generated_tools[tool.name] = tool`: if the key is
already present its value is replaced in place (position kept), otherwise the
pair is appended. -/
def dictInsert (reg : List (String × RestApiTool)) (t : RestApiTool) :
    List (String × RestApiTool) :=
  if t.name ∈ reg.map Prod.fst then
    reg.map (fun p => if p.1 = t.name then (p.1, t) else p)
  else reg ++ [(t.name, t)]

/-- The `for tool in tools:` loop of `_parse_spec_to_tools`. -/
def dictInsertAll (reg : List (String × RestApiTool)) (ts : List RestApiTool) :
    List (String × RestApiTool) :=
  ts.foldl dictInsert reg

/-- The auth branch of `_parse_spec_to_tools`: with a truthy
`service_account_json` the payload is parsed (raising on malformed JSON),
wrapped in a `ServiceAccount` scoped to cloud-platform and handed to the
scheme helper; otherwise the default-credential sentinel with the same scope
is paired with an `HTTPBearer(bearerFormat="JWT")` scheme. -/
def resolveAuth {σ : Type} (env : Env σ) (service_account_json : Option String) :
    Except InitError (AuthScheme × AuthCredential) :=
  if truthyStr service_account_json then
    match env.parse_sa_json (service_account_json.getD "") with
    | none => Except.error InitError.credentialParseError
    | some sa_credential =>
        Except.ok (service_account_scheme_credential
          { service_account_credential := some sa_credential,
            scopes := ["https://www.googleapis.com/auth/cloud-platform"] })
  else
    Except.ok
      (AuthScheme.httpBearer "JWT",
       { auth_type := AuthCredentialTypes.SERVICE_ACCOUNT,
         service_account := some
           { use_default_credential := true,
             scopes := ["https://www.googleapis.com/auth/cloud-platform"] } })

/-- The method `_parse_spec_to_tools`: resolve auth, run the external parser on the spec
document and insert every produced tool into the registry keyed by its name. -/
def parse_spec_to_tools {σ : Type} (env : Env σ) (cfg : ToolsetConfig)
    (reg : List (String × RestApiTool)) (spec : σ) :
    Except InitError (List (String × RestApiTool)) :=
  match resolveAuth env cfg.service_account_json with
  | Except.error e => Except.error e
  | Except.ok (auth_scheme, auth_credential) =>
      Except.ok (dictInsertAll reg
        (env.openapi_toolset_get_tools spec auth_credential auth_scheme))

/-- The directive appended to the local `tool_instructions` in connection
mode, built exactly as the source's string concatenation (including the
adjacent-literal join of "... when" and " using this tool"). -/
def augmentedInstructions (cfg : ToolsetConfig) (cd : ConnectionDetails) : String :=
  cfg.tool_instructions ++
    ("ALWAYS use serviceName = " ++ cd.serviceName ++ ", host = " ++ cd.host ++
     " and the connection name = projects/" ++ cfg.project ++ "/locations/" ++
     cfg.location ++ "/connections/" ++ cfg.connection.getD "" ++
     " when using this tool. DONOT ask the user for these values as you already have those.")

/-- The `ValueError` message raised when neither mode is selected (the
source's two adjacent string literals joined). -/
def configErrorMsg : String :=
  "Either (integration and trigger) or (connection and (entity_operations or actions)) should be provided."

/-- The validation-and-fetch part of `__init__`: the three-step dispatch that
picks the spec document and performs the remote calls, returning the document
together with the calls made, or the `ValueError` (with no calls made). -/
def selectSpec {σ : Type} (env : Env σ) (cfg : ToolsetConfig) :
    Except InitError (σ × List CallEvent) :=
  if truthyStr cfg.integration && truthyStr cfg.trigger then
    Except.ok (env.get_openapi_spec_for_integration,
      [CallEvent.get_openapi_spec_for_integration])
  else if truthyStr cfg.connection &&
      (truthyList cfg.entity_operations || truthyList cfg.actions) then
    let connection_details := env.get_connection_details
    let instr := augmentedInstructions cfg connection_details
    Except.ok (env.get_openapi_spec_for_connection cfg.tool_name instr,
      [CallEvent.get_connection_details,
       CallEvent.get_openapi_spec_for_connection cfg.tool_name instr])
  else
    Except.error (InitError.valueError configErrorMsg)

/-- The constructor `__init__` end to end: store the arguments, dispatch on the configuration,
fetch the spec and parse it into the registry.  The result is the constructed
toolset (or the raised exception, in which case no instance is observable by
the caller) paired with the trace of remote calls that were made. -/
def construct {σ : Type} (env : Env σ) (cfg : ToolsetConfig) :
    Except InitError ApplicationIntegrationToolset × List CallEvent :=
  match selectSpec env cfg with
  | Except.error e => (Except.error e, [])
  | Except.ok (spec, trace) =>
      match parse_spec_to_tools env cfg [] spec with
      | Except.error e => (Except.error e, trace)
      | Except.ok reg => (Except.ok { cfg := cfg, generated_tools := reg }, trace)

/-- The method `get_tools`: return the dict values in insertion order.  The method does
not mutate the instance, which the model makes explicit by returning the
(unchanged) state alongside the result. -/
def get_tools (ts : ApplicationIntegrationToolset) :
    List RestApiTool × ApplicationIntegrationToolset :=
  (ts.generated_tools.map Prod.snd, ts)

/-- The names of a list, keeping only first occurrences (relative to the
`seen` accumulator): the key order of a Python dict populated by repeated
assignment. -/
def firstOccs (seen : List String) : List String → List String
  | [] => []
  | x :: xs => if x ∈ seen then firstOccs seen xs else x :: firstOccs (x :: seen) xs

/-- Proposition that `s` contains `t` as a contiguous substring. -/
def containsStr (s t : String) : Prop :=
  ∃ pre post : String, s = pre ++ t ++ post

instance {ε α : Type} [DecidableEq ε] [DecidableEq α] : DecidableEq (Except ε α)
  | Except.error e₁, Except.error e₂ => decidable_of_iff (e₁ = e₂) (by simp)
  | Except.error _, Except.ok _ => isFalse (by simp)
  | Except.ok _, Except.error _ => isFalse (by simp)
  | Except.ok v₁, Except.ok v₂ => decidable_of_iff (v₁ = v₂) (by simp)

/-- A concrete environment over `Nat` spec documents, used to instantiate the
general theorems: document 2 parses to two distinctly named tools, document 3
to three tools with a duplicated name, anything else to a single tool; the
payload "bad" is the one malformed service-account JSON. -/
def envA : Env Nat :=
  { get_openapi_spec_for_integration := 1,
    get_connection_details := { serviceName := "s", host := "h" },
    get_openapi_spec_for_connection := fun _ _ => 2,
    parse_sa_json := fun s => if s = "bad" then none else some { payload := s },
    openapi_toolset_get_tools := fun spec _ _ =>
      if spec = 2 then [{ name := "op1", tag := 1 }, { name := "op2", tag := 2 }]
      else if spec = 3 then
        [{ name := "a", tag := 1 }, { name := "b", tag := 2 }, { name := "a", tag := 3 }]
      else [{ name := "t1", tag := 1 }] }

/-- A valid integration-mode configuration. -/
def cfgIntegration : ToolsetConfig :=
  { project := "p", location := "us-central1",
    integration := some "i", trigger := some "t" }

/-- A valid connection-mode configuration (the worked example of the spec). -/
def cfgConnection : ToolsetConfig :=
  { project := "p", location := "us-central1",
    connection := some "c", actions := some ["a1"] }

/-- A configuration satisfying both selector forms at once. -/
def cfgBoth : ToolsetConfig :=
  { project := "p", location := "us-central1",
    integration := some "i", trigger := some "t",
    connection := some "c", actions := some ["a1"] }

/-- A configuration satisfying neither selector form. -/
def cfgNeither : ToolsetConfig :=
  { project := "p", location := "us-central1" }

/-- The configuration `cfgIntegration` with the malformed service-account payload. -/
def cfgBadSA : ToolsetConfig :=
  { cfgIntegration with service_account_json := some "bad" }

/-- Projection of a construction result onto the registry, forgetting the
stored constructor arguments. -/
def registryOrError (r : Except InitError ApplicationIntegrationToolset) :
    Except InitError (List (String × RestApiTool)) :=
  match r with
  | Except.error e => Except.error e
  | Except.ok ts => Except.ok ts.generated_tools

/-- A toolset state with the given stored configuration and registry. -/
def mkToolset (cfg : ToolsetConfig) (reg : List (String × RestApiTool)) :
    ApplicationIntegrationToolset :=
  { cfg := cfg, generated_tools := reg }

/-- The default credential resolved when no service-account JSON is supplied:
the ambient-credential sentinel scoped to cloud-platform. -/
def defaultCredA : AuthCredential :=
  { auth_type := AuthCredentialTypes.SERVICE_ACCOUNT,
    service_account := some
      { service_account_credential := none,
        use_default_credential := true,
        scopes := ["https://www.googleapis.com/auth/cloud-platform"] } }

theorem selectSpec_integration {σ : Type} (env : Env σ) (cfg : ToolsetConfig)
    (h : (truthyStr cfg.integration && truthyStr cfg.trigger) = true) :
    selectSpec env cfg =
      Except.ok (env.get_openapi_spec_for_integration,
        [CallEvent.get_openapi_spec_for_integration]) := by
  simp [selectSpec, h]

theorem selectSpec_connection {σ : Type} (env : Env σ) (cfg : ToolsetConfig)
    (h1 : (truthyStr cfg.integration && truthyStr cfg.trigger) = false)
    (h2 : (truthyStr cfg.connection &&
      (truthyList cfg.entity_operations || truthyList cfg.actions)) = true) :
    selectSpec env cfg =
      Except.ok (env.get_openapi_spec_for_connection cfg.tool_name
          (augmentedInstructions cfg env.get_connection_details),
        [CallEvent.get_connection_details,
         CallEvent.get_openapi_spec_for_connection cfg.tool_name
           (augmentedInstructions cfg env.get_connection_details)]) := by
  simp [selectSpec, h1, h2]

theorem selectSpec_neither {σ : Type} (env : Env σ) (cfg : ToolsetConfig)
    (h1 : (truthyStr cfg.integration && truthyStr cfg.trigger) = false)
    (h2 : (truthyStr cfg.connection &&
      (truthyList cfg.entity_operations || truthyList cfg.actions)) = false) :
    selectSpec env cfg = Except.error (InitError.valueError configErrorMsg) := by
  simp [selectSpec, h1, h2]

theorem construct_of_selectSpec_error {σ : Type} (env : Env σ) (cfg : ToolsetConfig)
    (e : InitError) (h : selectSpec env cfg = Except.error e) :
    construct env cfg = (Except.error e, []) := by
  simp [construct, h]

theorem construct_snd_of_selectSpec_ok {σ : Type} (env : Env σ) (cfg : ToolsetConfig)
    (spec : σ) (trace : List CallEvent)
    (h : selectSpec env cfg = Except.ok (spec, trace)) :
    (construct env cfg).2 = trace := by
  simp only [construct, h]
  cases hp : parse_spec_to_tools env cfg [] spec <;> simp

/-- Sanity check of the embedding on the spec's worked example: the
connection-mode example config yields two tools named op1 and op2. -/
example :
    (construct envA cfgConnection).1 =
      Except.ok
        { cfg := cfgConnection,
          generated_tools :=
            [("op1", { name := "op1", tag := 1 }),
             ("op2", { name := "op2", tag := 2 })] } := by
  decide

/-- C1: construction dispatches in the source's three-step order: a truthy
integration and trigger select integration mode; otherwise a truthy
connection with truthy entity_operations or actions selects connection mode;
otherwise the ValueError is raised.  The selected mode is read off the trace
of remote calls. -/
theorem c1_mode_selection_order (σ : Type) (env : Env σ) (cfg : ToolsetConfig) :
    ((truthyStr cfg.integration && truthyStr cfg.trigger) = true →
      (construct env cfg).2 = [CallEvent.get_openapi_spec_for_integration]) ∧
    ((truthyStr cfg.integration && truthyStr cfg.trigger) = false →
      (truthyStr cfg.connection &&
        (truthyList cfg.entity_operations || truthyList cfg.actions)) = true →
      (construct env cfg).2 =
        [CallEvent.get_connection_details,
         CallEvent.get_openapi_spec_for_connection cfg.tool_name
           (augmentedInstructions cfg env.get_connection_details)]) ∧
    ((truthyStr cfg.integration && truthyStr cfg.trigger) = false →
      (truthyStr cfg.connection &&
        (truthyList cfg.entity_operations || truthyList cfg.actions)) = false →
      construct env cfg = (Except.error (InitError.valueError configErrorMsg), [])) := by
  refine ⟨fun h => ?_, fun h1 h2 => ?_, fun h1 h2 => ?_⟩
  · exact construct_snd_of_selectSpec_ok env cfg _ _ (selectSpec_integration env cfg h)
  · exact construct_snd_of_selectSpec_ok env cfg _ _ (selectSpec_connection env cfg h1 h2)
  · exact construct_of_selectSpec_error env cfg _ (selectSpec_neither env cfg h1 h2)

/-- Witness for C1: the three branches exercised on concrete configurations. -/
theorem c1_mode_selection_order_witness :
    (construct envA cfgIntegration).2 = [CallEvent.get_openapi_spec_for_integration] ∧
    (construct envA cfgConnection).2 =
      [CallEvent.get_connection_details,
       CallEvent.get_openapi_spec_for_connection cfgConnection.tool_name
         (augmentedInstructions cfgConnection envA.get_connection_details)] ∧
    construct envA cfgNeither = (Except.error (InitError.valueError configErrorMsg), []) :=
  ⟨(c1_mode_selection_order Nat envA cfgIntegration).1 (by decide),
   (c1_mode_selection_order Nat envA cfgConnection).2.1 (by decide) (by decide),
   (c1_mode_selection_order Nat envA cfgNeither).2.2 (by decide) (by decide)⟩

/-- C5 counterexample: a configuration in which both selector forms hold.
Construction does not fail: it succeeds in integration mode (with the trace
showing only the integration call). -/
theorem c5_counterexample_both_modes_succeeds :
    (truthyStr cfgBoth.integration && truthyStr cfgBoth.trigger) = true ∧
    (truthyStr cfgBoth.connection &&
      (truthyList cfgBoth.entity_operations || truthyList cfgBoth.actions)) = true ∧
    construct envA cfgBoth =
      (Except.ok
         { cfg := cfgBoth,
           generated_tools := [("t1", { name := "t1", tag := 1 })] },
       [CallEvent.get_openapi_spec_for_integration]) := by
  decide

/-- C5 amended: when both selector forms hold the configuration is not
rejected; the integration form takes precedence, integration mode is
selected, and the configuration ValueError is never raised. -/
theorem resolveAuth_error_eq {σ : Type} (env : Env σ) (j : Option String) (e : InitError)
    (h : resolveAuth env j = Except.error e) : e = InitError.credentialParseError := by
  by_cases ht : truthyStr j = true
  · simp only [resolveAuth, ht, if_true] at h
    cases hq : env.parse_sa_json (j.getD "") with
    | none => rw [hq] at h; exact (Except.error.injEq _ _).mp h.symm
    | some v => rw [hq] at h; cases h
  · simp only [resolveAuth, ht, if_false, Bool.not_eq_true] at h
    rw [if_neg] at h
    · cases h
    · simp [Bool.not_eq_true] at ht; simp [ht]

theorem parse_spec_to_tools_error_eq {σ : Type} (env : Env σ) (cfg : ToolsetConfig)
    (reg : List (String × RestApiTool)) (spec : σ) (e : InitError)
    (h : parse_spec_to_tools env cfg reg spec = Except.error e) :
    e = InitError.credentialParseError := by
  simp only [parse_spec_to_tools] at h
  cases hr : resolveAuth env cfg.service_account_json with
  | error e₂ =>
      rw [hr] at h
      cases h
      exact resolveAuth_error_eq env cfg.service_account_json e hr
  | ok pr => rw [hr] at h; cases h

theorem c5_amended_integration_precedence (σ : Type) (env : Env σ) (cfg : ToolsetConfig)
    (h1 : (truthyStr cfg.integration && truthyStr cfg.trigger) = true)
    (_h2 : (truthyStr cfg.connection &&
      (truthyList cfg.entity_operations || truthyList cfg.actions)) = true) :
    (construct env cfg).2 = [CallEvent.get_openapi_spec_for_integration] ∧
    ∀ m : String, (construct env cfg).1 ≠ Except.error (InitError.valueError m) := by
  have hsel := selectSpec_integration env cfg h1
  refine ⟨construct_snd_of_selectSpec_ok env cfg _ _ hsel, fun m => ?_⟩
  simp only [construct, hsel]
  cases hp : parse_spec_to_tools env cfg [] env.get_openapi_spec_for_integration with
  | error e =>
      have := parse_spec_to_tools_error_eq env cfg [] _ e hp
      subst this
      simp
  | ok reg => simp

/-- Witness for the amended C5: on the both-modes configuration the trace is
the single integration call and the result is not a ValueError. -/
theorem c5_amended_integration_precedence_witness :
    (construct envA cfgBoth).2 = [CallEvent.get_openapi_spec_for_integration] ∧
    ∀ m : String, (construct envA cfgBoth).1 ≠ Except.error (InitError.valueError m) :=
  c5_amended_integration_precedence Nat envA cfgBoth (by decide) (by decide)

/-- C6: when neither selector form is truthy, construction raises the
ValueError (with the source's message) and the trace is empty: no
get_openapi_spec_for_integration, get_connection_details or
get_openapi_spec_for_connection call is made. -/
theorem c6_neither_mode_error_no_calls (σ : Type) (env : Env σ) (cfg : ToolsetConfig)
    (h1 : (truthyStr cfg.integration && truthyStr cfg.trigger) = false)
    (h2 : (truthyStr cfg.connection &&
      (truthyList cfg.entity_operations || truthyList cfg.actions)) = false) :
    construct env cfg = (Except.error (InitError.valueError configErrorMsg), []) :=
  construct_of_selectSpec_error env cfg _ (selectSpec_neither env cfg h1 h2)

/-- Witness for C6 on the empty configuration. -/
theorem c6_neither_mode_error_no_calls_witness :
    construct envA cfgNeither = (Except.error (InitError.valueError configErrorMsg), []) :=
  c6_neither_mode_error_no_calls Nat envA cfgNeither (by decide) (by decide)

/-- C7: with a truthy service-account payload that fails to parse, and a
configuration that selects either mode, construction fails with the
credential parse error; the error result carries no toolset, so no partial
registry is observable by the caller. -/
theorem c7_malformed_sa_json_aborts (σ : Type) (env : Env σ) (cfg : ToolsetConfig)
    (j : String)
    (hmode : (truthyStr cfg.integration && truthyStr cfg.trigger) = true ∨
      ((truthyStr cfg.integration && truthyStr cfg.trigger) = false ∧
       (truthyStr cfg.connection &&
         (truthyList cfg.entity_operations || truthyList cfg.actions)) = true))
    (hj : cfg.service_account_json = some j)
    (hne : j.isEmpty = false)
    (hp : env.parse_sa_json j = none) :
    (construct env cfg).1 = Except.error InitError.credentialParseError ∧
    ∀ ts : ApplicationIntegrationToolset, (construct env cfg).1 ≠ Except.ok ts := by
  have hparse : ∀ spec : σ, parse_spec_to_tools env cfg [] spec =
      Except.error InitError.credentialParseError := by
    intro spec
    simp [parse_spec_to_tools, resolveAuth, hj, hp, truthyStr, hne]
  have hfst : (construct env cfg).1 = Except.error InitError.credentialParseError := by
    rcases hmode with h1 | ⟨h1, h2⟩
    · have hsel := selectSpec_integration env cfg h1
      simp [construct, hsel, hparse]
    · have hsel := selectSpec_connection env cfg h1 h2
      simp [construct, hsel, hparse]
  exact ⟨hfst, fun ts hc => by rw [hfst] at hc; cases hc⟩

/-- Witness for C7: the integration-mode configuration with the malformed
payload "bad". -/
theorem c7_malformed_sa_json_aborts_witness :
    (construct envA cfgBadSA).1 = Except.error InitError.credentialParseError ∧
    ∀ ts : ApplicationIntegrationToolset, (construct envA cfgBadSA).1 ≠ Except.ok ts :=
  c7_malformed_sa_json_aborts Nat envA cfgBadSA "bad" (Or.inl (by decide)) (by decide)
    (by decide) (by decide)

/-- C8: in integration mode the trace is exactly one
get_openapi_spec_for_integration call; in particular no
get_connection_details call occurs. -/
theorem c8_integration_mode_single_call (σ : Type) (env : Env σ) (cfg : ToolsetConfig)
    (h : (truthyStr cfg.integration && truthyStr cfg.trigger) = true) :
    (construct env cfg).2 = [CallEvent.get_openapi_spec_for_integration] ∧
    CallEvent.get_connection_details ∉ (construct env cfg).2 := by
  have htr := construct_snd_of_selectSpec_ok env cfg _ _ (selectSpec_integration env cfg h)
  refine ⟨htr, ?_⟩
  rw [htr]
  simp

/-- Witness for C8 on the integration-mode configuration. -/
theorem c8_integration_mode_single_call_witness :
    (construct envA cfgIntegration).2 = [CallEvent.get_openapi_spec_for_integration] ∧
    CallEvent.get_connection_details ∉ (construct envA cfgIntegration).2 :=
  c8_integration_mode_single_call Nat envA cfgIntegration (by decide)

/-- C9: get_tools does not mutate the instance (it returns the unchanged
state), so repeated calls return equal sequences. -/
theorem c9_get_tools_idempotent (ts : ApplicationIntegrationToolset) :
    (get_tools ((get_tools ts).2)).1 = (get_tools ts).1 ∧ (get_tools ts).2 = ts :=
  ⟨rfl, rfl⟩

/-- C4: with a falsy service-account payload, auth resolution yields the
default-credential sentinel scoped to cloud-platform paired with the
HTTPBearer JWT scheme; with a truthy payload that parses, it yields exactly
the pair produced by the service-account scheme helper applied to the parsed
credential scoped to cloud-platform; and every successful resolution carries
exactly the cloud-platform scope. -/
theorem c4_auth_resolution (σ : Type) (env : Env σ) (j : Option String) :
    (truthyStr j = false →
      resolveAuth env j = Except.ok
        (AuthScheme.httpBearer "JWT",
         { auth_type := AuthCredentialTypes.SERVICE_ACCOUNT,
           service_account := some
             { service_account_credential := none,
               use_default_credential := true,
               scopes := ["https://www.googleapis.com/auth/cloud-platform"] } })) ∧
    (∀ (s : String) (cred : ServiceAccountCredential),
      j = some s → s.isEmpty = false → env.parse_sa_json s = some cred →
      resolveAuth env j = Except.ok (service_account_scheme_credential
        { service_account_credential := some cred,
          use_default_credential := false,
          scopes := ["https://www.googleapis.com/auth/cloud-platform"] })) ∧
    (∀ (sch : AuthScheme) (c : AuthCredential),
      resolveAuth env j = Except.ok (sch, c) →
      ∃ sa : ServiceAccount, c.service_account = some sa ∧
        sa.scopes = ["https://www.googleapis.com/auth/cloud-platform"]) := by
  have hdefault : truthyStr j = false →
      resolveAuth env j = Except.ok
        (AuthScheme.httpBearer "JWT",
         { auth_type := AuthCredentialTypes.SERVICE_ACCOUNT,
           service_account := some
             { service_account_credential := none,
               use_default_credential := true,
               scopes := ["https://www.googleapis.com/auth/cloud-platform"] } }) :=
    fun hf => by simp [resolveAuth, hf]
  refine ⟨hdefault, fun s cred hjs hne hp => ?_, fun sch c hok => ?_⟩
  · simp [resolveAuth, hjs, truthyStr, hne, hp, service_account_scheme_credential]
  · by_cases ht : truthyStr j = true
    · simp only [resolveAuth, ht, if_true] at hok
      cases hq : env.parse_sa_json (j.getD "") with
      | none => rw [hq] at hok; cases hok
      | some v =>
          rw [hq] at hok
          simp only [service_account_scheme_credential] at hok
          rw [Except.ok.injEq] at hok
          injection hok with h1 h2
          subst h2
          exact ⟨_, rfl, rfl⟩
    · have hf : truthyStr j = false := by simpa using ht
      rw [hdefault hf] at hok
      rw [Except.ok.injEq] at hok
      injection hok with h1 h2
      subst h2
      exact ⟨_, rfl, rfl⟩

/-- Witness for C4: the default branch (no payload) and the parsed branch
(payload "good") on the concrete environment. -/
theorem c4_auth_resolution_witness :
    resolveAuth envA none = Except.ok
      (AuthScheme.httpBearer "JWT",
       { auth_type := AuthCredentialTypes.SERVICE_ACCOUNT,
         service_account := some
           { service_account_credential := none,
             use_default_credential := true,
             scopes := ["https://www.googleapis.com/auth/cloud-platform"] } }) ∧
    resolveAuth envA (some "good") = Except.ok (service_account_scheme_credential
      { service_account_credential := some { payload := "good" },
        use_default_credential := false,
        scopes := ["https://www.googleapis.com/auth/cloud-platform"] }) :=
  ⟨(c4_auth_resolution Nat envA none).1 (by decide),
   (c4_auth_resolution Nat envA (some "good")).2.1 "good" { payload := "good" }
     rfl (by decide) (by decide)⟩

/-- C10: in integration mode, tool_name and tool_instructions do not affect
the remote calls made (the integration spec request is issued without them)
nor the resulting registry; they only reach the connection-mode document
request. -/
theorem c10_tool_name_instructions_frame (σ : Type) (env : Env σ) (cfg : ToolsetConfig)
    (n₁ i₁ n₂ i₂ : String)
    (h : (truthyStr cfg.integration && truthyStr cfg.trigger) = true) :
    (construct env { cfg with tool_name := n₁, tool_instructions := i₁ }).2 =
      (construct env { cfg with tool_name := n₂, tool_instructions := i₂ }).2 ∧
    registryOrError (construct env { cfg with tool_name := n₁, tool_instructions := i₁ }).1 =
      registryOrError (construct env { cfg with tool_name := n₂, tool_instructions := i₂ }).1 := by
  have h₁ : (truthyStr ({ cfg with tool_name := n₁, tool_instructions := i₁ } :
      ToolsetConfig).integration &&
      truthyStr ({ cfg with tool_name := n₁, tool_instructions := i₁ } :
        ToolsetConfig).trigger) = true := h
  have h₂ : (truthyStr ({ cfg with tool_name := n₂, tool_instructions := i₂ } :
      ToolsetConfig).integration &&
      truthyStr ({ cfg with tool_name := n₂, tool_instructions := i₂ } :
        ToolsetConfig).trigger) = true := h
  have hs₁ := selectSpec_integration env _ h₁
  have hs₂ := selectSpec_integration env _ h₂
  constructor
  · rw [construct_snd_of_selectSpec_ok env _ _ _ hs₁,
        construct_snd_of_selectSpec_ok env _ _ _ hs₂]
  · simp only [construct, hs₁, hs₂]
    have hpar : parse_spec_to_tools env { cfg with tool_name := n₁, tool_instructions := i₁ }
        [] env.get_openapi_spec_for_integration =
        parse_spec_to_tools env { cfg with tool_name := n₂, tool_instructions := i₂ }
        [] env.get_openapi_spec_for_integration := rfl
    rw [hpar]
    cases hp : parse_spec_to_tools env { cfg with tool_name := n₂, tool_instructions := i₂ }
        [] env.get_openapi_spec_for_integration with
    | error e => simp [registryOrError]
    | ok reg => simp [registryOrError]

/-- Witness for C10: two integration-mode configurations differing only in
tool_name and tool_instructions produce the same calls and registry. -/
theorem c10_tool_name_instructions_frame_witness :
    (construct envA { cfgIntegration with tool_name := "x", tool_instructions := "do x" }).2 =
      (construct envA { cfgIntegration with tool_name := "y", tool_instructions := "do y" }).2 ∧
    registryOrError (construct envA
        { cfgIntegration with tool_name := "x", tool_instructions := "do x" }).1 =
      registryOrError (construct envA
        { cfgIntegration with tool_name := "y", tool_instructions := "do y" }).1 :=
  c10_tool_name_instructions_frame Nat envA cfgIntegration "x" "do x" "y" "do y" (by decide)

theorem dictInsert_keys (reg : List (String × RestApiTool)) (t : RestApiTool) :
    (dictInsert reg t).map Prod.fst =
      if t.name ∈ reg.map Prod.fst then reg.map Prod.fst
      else reg.map Prod.fst ++ [t.name] := by
  unfold dictInsert
  by_cases h : t.name ∈ reg.map Prod.fst
  · rw [if_pos h, if_pos h, List.map_map]
    apply List.map_congr_left
    intro p _
    by_cases hp : p.1 = t.name <;> simp [hp]
  · rw [if_neg h, if_neg h]
    simp

theorem firstOccs_congr (l : List String) : ∀ seen₁ seen₂ : List String,
    (∀ x, x ∈ seen₁ ↔ x ∈ seen₂) → firstOccs seen₁ l = firstOccs seen₂ l := by
  induction l with
  | nil => intro seen₁ seen₂ _; rfl
  | cons x xs ih =>
      intro seen₁ seen₂ hiff
      simp only [firstOccs]
      by_cases hx : x ∈ seen₁
      · rw [if_pos hx, if_pos ((hiff x).mp hx)]
        exact ih seen₁ seen₂ hiff
      · rw [if_neg hx, if_neg (fun hc => hx ((hiff x).mpr hc))]
        refine congrArg (x :: ·) (ih (x :: seen₁) (x :: seen₂) fun y => ?_)
        simp only [List.mem_cons]
        exact or_congr Iff.rfl (hiff y)

theorem dictInsertAll_keys (ts : List RestApiTool) :
    ∀ reg : List (String × RestApiTool),
    (dictInsertAll reg ts).map Prod.fst =
      reg.map Prod.fst ++ firstOccs (reg.map Prod.fst) (ts.map RestApiTool.name) := by
  induction ts with
  | nil => intro reg; simp [dictInsertAll, firstOccs]
  | cons t ts ih =>
      intro reg
      have hstep : dictInsertAll reg (t :: ts) = dictInsertAll (dictInsert reg t) ts := rfl
      rw [hstep, ih (dictInsert reg t), dictInsert_keys reg t]
      by_cases h : t.name ∈ reg.map Prod.fst
      · rw [if_pos h]
        simp only [List.map_cons, firstOccs, if_pos h]
      · rw [if_neg h]
        simp only [List.map_cons, firstOccs, if_neg h]
        rw [List.append_assoc]
        refine congrArg (reg.map Prod.fst ++ ·) (congrArg (t.name :: ·) ?_)
        exact firstOccs_congr (ts.map RestApiTool.name) _ _ fun y => by
          simp only [List.mem_append, List.mem_singleton, List.mem_cons,
            List.not_mem_nil, or_false]
          exact or_comm
      -- both branches close the goal

theorem firstOccs_mem (l : List String) : ∀ (seen : List String) (x : String),
    x ∈ firstOccs seen l ↔ x ∈ l ∧ x ∉ seen := by
  induction l with
  | nil => intro seen x; simp [firstOccs]
  | cons y ys ih =>
      intro seen x
      simp only [firstOccs]
      by_cases hy : y ∈ seen
      · rw [if_pos hy, ih seen x]
        constructor
        · rintro ⟨hx, hns⟩; exact ⟨List.mem_cons_of_mem y hx, hns⟩
        · rintro ⟨hx, hns⟩
          rcases List.mem_cons.mp hx with rfl | hx'
          · exact absurd hy hns
          · exact ⟨hx', hns⟩
      · rw [if_neg hy]
        simp only [List.mem_cons, ih (y :: seen) x, List.mem_cons]
        constructor
        · rintro (rfl | ⟨hx, hns⟩)
          · exact ⟨Or.inl rfl, hy⟩
          · exact ⟨Or.inr hx, fun hc => hns (Or.inr hc)⟩
        · rintro ⟨rfl | hx, hns⟩
          · exact Or.inl rfl
          · by_cases hxy : x = y
            · exact Or.inl hxy
            · exact Or.inr ⟨hx, fun hc => hns (hc.resolve_left hxy)⟩
      -- end cases

theorem firstOccs_nodup (l : List String) : ∀ seen : List String,
    (firstOccs seen l).Nodup := by
  induction l with
  | nil => intro seen; simp [firstOccs]
  | cons y ys ih =>
      intro seen
      simp only [firstOccs]
      by_cases hy : y ∈ seen
      · rw [if_pos hy]; exact ih seen
      · rw [if_neg hy]
        refine List.Nodup.cons ?_ (ih (y :: seen))
        intro hc
        exact ((firstOccs_mem ys (y :: seen) y).mp hc).2 (List.mem_cons_self y seen)

theorem firstOccs_toFinset (l : List String) :
    (firstOccs [] l).toFinset = l.toFinset := by
  apply Finset.ext
  intro x
  simp [List.mem_toFinset, firstOccs_mem]

theorem mem_dictInsert (reg : List (String × RestApiTool)) (t' : RestApiTool)
    (n : String) (t : RestApiTool) :
    (n, t) ∈ dictInsert reg t' ↔
      ((n = t'.name ∧ t = t') ∨ (n ≠ t'.name ∧ (n, t) ∈ reg)) := by
  unfold dictInsert
  by_cases h : t'.name ∈ reg.map Prod.fst
  · rw [if_pos h]
    constructor
    · intro hm
      rcases List.mem_map.mp hm with ⟨p, hp, heq⟩
      by_cases hpn : p.1 = t'.name
      · rw [if_pos hpn] at heq
        have hinj := (Prod.mk.injEq _ _ _ _).mp heq
        exact Or.inl ⟨hinj.1 ▸ hpn, hinj.2.symm⟩
      · rw [if_neg hpn] at heq
        exact Or.inr ⟨fun hc => hpn (by rw [heq]; exact hc), heq ▸ hp⟩
    · rintro (⟨rfl, rfl⟩ | ⟨hne, hm⟩)
      · rcases List.mem_map.mp h with ⟨p, hp, hpn⟩
        refine List.mem_map.mpr ⟨p, hp, ?_⟩
        rw [if_pos hpn, hpn]
      · refine List.mem_map.mpr ⟨(n, t), hm, ?_⟩
        rw [if_neg hne]
  · rw [if_neg h]
    constructor
    · intro hm
      rcases List.mem_append.mp hm with hm' | hm'
      · refine Or.inr ⟨?_, hm'⟩
        intro hc
        exact h (List.mem_map.mpr ⟨(n, t), hm', hc⟩)
      · rcases List.mem_singleton.mp hm' with heq
        exact Or.inl ⟨((Prod.mk.injEq _ _ _ _).mp heq).1,
          ((Prod.mk.injEq _ _ _ _).mp heq).2⟩
    · rintro (⟨rfl, rfl⟩ | ⟨_, hm⟩)
      · exact List.mem_append.mpr (Or.inr (List.mem_singleton.mpr rfl))
      · exact List.mem_append.mpr (Or.inl hm)

theorem getLast?_cons_of_ne_nil {α : Type} (a : α) (l : List α) (h : l ≠ []) :
    (a :: l).getLast? = l.getLast? := by
  cases l with
  | nil => exact absurd rfl h
  | cons b bs => rfl

theorem dictInsertAll_values (ts : List RestApiTool) :
    ∀ (reg : List (String × RestApiTool)) (n : String) (t : RestApiTool),
    (n, t) ∈ dictInsertAll reg ts →
    (ts.filter (fun u => u.name == n)).getLast? = some t ∨
      (ts.filter (fun u => u.name == n) = [] ∧ (n, t) ∈ reg) := by
  induction ts with
  | nil => intro reg n t hm; exact Or.inr ⟨rfl, hm⟩
  | cons t' ts ih =>
      intro reg n t hm
      have hstep : dictInsertAll reg (t' :: ts) = dictInsertAll (dictInsert reg t') ts := rfl
      rw [hstep] at hm
      have hrec := ih (dictInsert reg t') n t hm
      by_cases hn : t'.name = n
      · have hfil : (t' :: ts).filter (fun u => u.name == n) =
            t' :: ts.filter (fun u => u.name == n) := by
          simp [List.filter_cons, hn]
        rcases hrec with hlast | ⟨hnil, hmem⟩
        · left
          rw [hfil, getLast?_cons_of_ne_nil t' _ (fun hc => by rw [hc] at hlast; cases hlast)]
          exact hlast
        · left
          rw [hfil, hnil]
          rcases (mem_dictInsert reg t' n t).mp hmem with ⟨_, rfl⟩ | ⟨hne, _⟩
          · rfl
          · exact absurd hn.symm hne
      · have hfil : (t' :: ts).filter (fun u => u.name == n) =
            ts.filter (fun u => u.name == n) := by
          simp [List.filter_cons, hn]
        rcases hrec with hlast | ⟨hnil, hmem⟩
        · left; rw [hfil]; exact hlast
        · right
          refine ⟨by rw [hfil]; exact hnil, ?_⟩
          rcases (mem_dictInsert reg t' n t).mp hmem with ⟨heq, _⟩ | ⟨_, hm'⟩
          · exact absurd heq.symm hn
          · exact hm'

theorem dictInsertAll_name_consistent (ts : List RestApiTool) :
    ∀ reg : List (String × RestApiTool),
    (∀ p ∈ reg, (Prod.snd p).name = p.1) →
    ∀ p ∈ dictInsertAll reg ts, (Prod.snd p).name = p.1 := by
  induction ts with
  | nil => intro reg hreg p hp; exact hreg p hp
  | cons t' ts ih =>
      intro reg hreg p hp
      have hstep : dictInsertAll reg (t' :: ts) = dictInsertAll (dictInsert reg t') ts := rfl
      rw [hstep] at hp
      refine ih (dictInsert reg t') ?_ p hp
      intro q hq
      rcases (mem_dictInsert reg t' q.1 q.2).mp (by simpa using hq) with ⟨h1, h2⟩ | ⟨_, hm⟩
      · rw [h2, h1]
      · exact hreg q hm

/-- C2: when auth resolution succeeds, `_parse_spec_to_tools` inserts the
parser's tools into the registry in order with Python-dict semantics, and the
resulting `get_tools` sequence lists one tool per distinct name: names in
first-occurrence order, each tool being the last parser output with its name,
and the length equal to the number of distinct names. -/
theorem c2_get_tools_last_write_wins (σ : Type) (env : Env σ) (cfg : ToolsetConfig)
    (spec : σ) (scheme : AuthScheme) (cred : AuthCredential)
    (hauth : resolveAuth env cfg.service_account_json = Except.ok (scheme, cred)) :
    parse_spec_to_tools env cfg [] spec =
      Except.ok (dictInsertAll [] (env.openapi_toolset_get_tools spec cred scheme)) ∧
    ((get_tools (mkToolset cfg
        (dictInsertAll [] (env.openapi_toolset_get_tools spec cred scheme)))).1.map
          RestApiTool.name =
      firstOccs [] ((env.openapi_toolset_get_tools spec cred scheme).map RestApiTool.name)) ∧
    (∀ t ∈ (get_tools (mkToolset cfg
        (dictInsertAll [] (env.openapi_toolset_get_tools spec cred scheme)))).1,
      ((env.openapi_toolset_get_tools spec cred scheme).filter
        (fun u => u.name == t.name)).getLast? = some t) ∧
    ((get_tools (mkToolset cfg
        (dictInsertAll [] (env.openapi_toolset_get_tools spec cred scheme)))).1.length =
      ((env.openapi_toolset_get_tools spec cred scheme).map RestApiTool.name).toFinset.card) := by
  set ts := env.openapi_toolset_get_tools spec cred scheme with hts
  have hcons : ∀ p ∈ dictInsertAll [] ts, (Prod.snd p).name = p.1 :=
    dictInsertAll_name_consistent ts [] (by simp)
  have hkeys : (dictInsertAll [] ts).map Prod.fst = firstOccs [] (ts.map RestApiTool.name) := by
    have := dictInsertAll_keys ts []
    simpa using this
  have hnames : ((dictInsertAll [] ts).map Prod.snd).map RestApiTool.name =
      firstOccs [] (ts.map RestApiTool.name) := by
    rw [List.map_map]
    calc (dictInsertAll [] ts).map (RestApiTool.name ∘ Prod.snd)
        = (dictInsertAll [] ts).map Prod.fst :=
          List.map_congr_left (fun p hp => hcons p hp)
      _ = firstOccs [] (ts.map RestApiTool.name) := hkeys
  refine ⟨?_, ?_, ?_, ?_⟩
  · simp [parse_spec_to_tools, hauth]
  · exact hnames
  · intro t ht
    rcases List.mem_map.mp ht with ⟨p, hp, hpt⟩
    have hname : t.name = p.1 := by rw [← hpt]; exact hcons p hp
    have hval := dictInsertAll_values ts [] p.1 p.2 hp
    rcases hval with hlast | ⟨_, hmem⟩
    · rw [hname, ← hpt]
      exact hlast
    · cases hmem
  · have hlen : (dictInsertAll [] ts).length = (firstOccs [] (ts.map RestApiTool.name)).length := by
      rw [← hkeys, List.length_map]
    have hfin : (firstOccs [] (ts.map RestApiTool.name)).toFinset.card =
        (firstOccs [] (ts.map RestApiTool.name)).length :=
      List.toFinset_card_of_nodup (firstOccs_nodup (ts.map RestApiTool.name) [])
    calc ((dictInsertAll [] ts).map Prod.snd).length
        = (dictInsertAll [] ts).length := List.length_map _ _
      _ = (firstOccs [] (ts.map RestApiTool.name)).length := hlen
      _ = (firstOccs [] (ts.map RestApiTool.name)).toFinset.card := hfin.symm
      _ = (ts.map RestApiTool.name).toFinset.card := by
          rw [firstOccs_toFinset]

/-- Witness for C2 on a parser output with a duplicated name: spec document 3
parses to tools named a, b, a; the registry holds the last a (tag 3) at the
first a's position, names in first-occurrence order, length 2. -/
theorem c2_get_tools_last_write_wins_witness :
    parse_spec_to_tools envA cfgNeither [] 3 =
      Except.ok (dictInsertAll []
        (envA.openapi_toolset_get_tools 3 defaultCredA (AuthScheme.httpBearer "JWT"))) ∧
    ((get_tools (mkToolset cfgNeither (dictInsertAll []
        (envA.openapi_toolset_get_tools 3 defaultCredA (AuthScheme.httpBearer "JWT"))))).1.map
          RestApiTool.name =
      firstOccs []
        ((envA.openapi_toolset_get_tools 3 defaultCredA
          (AuthScheme.httpBearer "JWT")).map RestApiTool.name)) ∧
    (∀ t ∈ (get_tools (mkToolset cfgNeither (dictInsertAll []
        (envA.openapi_toolset_get_tools 3 defaultCredA (AuthScheme.httpBearer "JWT"))))).1,
      ((envA.openapi_toolset_get_tools 3 defaultCredA (AuthScheme.httpBearer "JWT")).filter
        (fun u => u.name == t.name)).getLast? = some t) ∧
    ((get_tools (mkToolset cfgNeither (dictInsertAll []
        (envA.openapi_toolset_get_tools 3 defaultCredA (AuthScheme.httpBearer "JWT"))))).1.length =
      ((envA.openapi_toolset_get_tools 3 defaultCredA
        (AuthScheme.httpBearer "JWT")).map RestApiTool.name).toFinset.card) :=
  c2_get_tools_last_write_wins Nat envA cfgNeither 3 (AuthScheme.httpBearer "JWT")
    defaultCredA (by decide)

/-- C3: in connection mode the trace is exactly one get_connection_details
call followed by one get_openapi_spec_for_connection call; the instructions
passed to the latter are the once-augmented text, which contains the
retrieved serviceName, the retrieved host, and the literal connection
resource path built from project, location and connection. -/
theorem c3_connection_mode_calls_and_instructions (σ : Type) (env : Env σ)
    (cfg : ToolsetConfig)
    (h1 : (truthyStr cfg.integration && truthyStr cfg.trigger) = false)
    (h2 : (truthyStr cfg.connection &&
      (truthyList cfg.entity_operations || truthyList cfg.actions)) = true) :
    (construct env cfg).2 =
      [CallEvent.get_connection_details,
       CallEvent.get_openapi_spec_for_connection cfg.tool_name
         (augmentedInstructions cfg env.get_connection_details)] ∧
    containsStr (augmentedInstructions cfg env.get_connection_details)
      env.get_connection_details.serviceName ∧
    containsStr (augmentedInstructions cfg env.get_connection_details)
      env.get_connection_details.host ∧
    containsStr (augmentedInstructions cfg env.get_connection_details)
      ("projects/" ++ cfg.project ++ "/locations/" ++ cfg.location ++
        "/connections/" ++ cfg.connection.getD "") := by
  refine ⟨construct_snd_of_selectSpec_ok env cfg _ _
    (selectSpec_connection env cfg h1 h2), ?_, ?_, ?_⟩
  · refine ⟨cfg.tool_instructions ++ "ALWAYS use serviceName = ",
      ", host = " ++ env.get_connection_details.host ++
        " and the connection name = projects/" ++ cfg.project ++ "/locations/" ++
        cfg.location ++ "/connections/" ++ cfg.connection.getD "" ++
        " when using this tool. DONOT ask the user for these values as you already have those.",
      ?_⟩
    simp [augmentedInstructions, String.append_assoc]
  · refine ⟨cfg.tool_instructions ++ "ALWAYS use serviceName = " ++
        env.get_connection_details.serviceName ++ ", host = ",
      " and the connection name = projects/" ++ cfg.project ++ "/locations/" ++
        cfg.location ++ "/connections/" ++ cfg.connection.getD "" ++
        " when using this tool. DONOT ask the user for these values as you already have those.",
      ?_⟩
    simp [augmentedInstructions, String.append_assoc]
  · refine ⟨cfg.tool_instructions ++ "ALWAYS use serviceName = " ++
        env.get_connection_details.serviceName ++ ", host = " ++
        env.get_connection_details.host ++ " and the connection name = ",
      " when using this tool. DONOT ask the user for these values as you already have those.",
      ?_⟩
    have hsplit : (" and the connection name = projects/" : String) =
        " and the connection name = " ++ "projects/" := by decide
    simp only [augmentedInstructions, String.append_assoc]
    rw [hsplit]
    simp only [String.append_assoc]

/-- Witness for C3 on the connection-mode example configuration. -/
theorem c3_connection_mode_calls_and_instructions_witness :
    (construct envA cfgConnection).2 =
      [CallEvent.get_connection_details,
       CallEvent.get_openapi_spec_for_connection cfgConnection.tool_name
         (augmentedInstructions cfgConnection envA.get_connection_details)] ∧
    containsStr (augmentedInstructions cfgConnection envA.get_connection_details)
      envA.get_connection_details.serviceName ∧
    containsStr (augmentedInstructions cfgConnection envA.get_connection_details)
      envA.get_connection_details.host ∧
    containsStr (augmentedInstructions cfgConnection envA.get_connection_details)
      ("projects/" ++ cfgConnection.project ++ "/locations/" ++ cfgConnection.location ++
        "/connections/" ++ cfgConnection.connection.getD "") :=
  c3_connection_mode_calls_and_instructions Nat envA cfgConnection (by decide) (by decide)

end ADK
